import Mathlib

/-!
Verification development for the patent search / recall-analysis core
(`patent_downloader.py`, `recall_analyzer.py`).

The Python functions are shallowly embedded as executable Lean definitions.
Strings are Lean `String`s (lists of unicode scalar values); Python's
`re.sub`/`str.replace`/slicing become the corresponding list operations.
External libraries (the `json` module, BeautifulSoup) are embedded at their
interface: a fuel-based JSON parser models `json.loads` on the integer-only
JSON fragment the site emits, and the markup text-extraction used for titles
is a simple tag-dropping model.  The HTML-fragment result parser
(`_parse_results_from_html`, a BeautifulSoup DOM traversal) is kept abstract
as a function parameter; the claims about tier precedence quantify over it.
-/

/-- Characters matched by Python's `\s` regex class (ASCII range), used by
`re.sub(r'[\s,\-]', ...)` in `normalize_patent_number`. -/
def isPyWs (c : Char) : Bool :=
  c = ' ' || c = '\t' || c = '\n' || c = '\r' || c = '\x0b' || c = '\x0c'

/-- `recall_analyzer.normalize_patent_number`: if the argument is falsy
(empty string) return `""`; otherwise remove whitespace, commas and hyphens
(`re.sub(r'[\s,\-]', '', x)`) and uppercase the result (`.upper()`). -/
def normalize_patent_number (s : String) : String :=
  if s = "" then ""
  else String.mk (((s.data.filter (fun c => !(isPyWs c || c = ',' || c = '-')))).map Char.toUpper)

/-- Spec-side restatement of the normalization rule, written from the spec's
words: "strip whitespace, commas, and hyphens, then uppercase". -/
def normalizeSpec (s : String) : String :=
  String.mk ((s.data.filter (fun c => !(isPyWs c || c = ',' || c = '-'))).map Char.toUpper)

/-- Models Python `str.replace(old_char, "")`: drop every occurrence of `c`. -/
def removeChar (c : Char) (l : List Char) : List Char :=
  l.filter (fun d => d ≠ c)

/-- The inline identifier normalization used by the early-termination
comparison in `_fetch_all_results` (patent_downloader.py lines 769 and 772):
`x.upper().replace(" ", "").replace(",", "").replace("-", "")`. -/
def early_termination_normalize (s : String) : String :=
  String.mk (removeChar '-' (removeChar ',' (removeChar ' ' (s.data.map Char.toUpper))))

/-- Characters rejected by `_sanitize_filename`'s character class
`[<>:\"/\\|?*]`. -/
def isReservedFilenameChar (c : Char) : Bool :=
  c = '<' || c = '>' || c = ':' || c = '\"' || c = '/' || c = '\\' ||
  c = '|' || c = '?' || c = '*'

/-- `GooglePatentsXHRDownloader._sanitize_filename`: replace each reserved
character by an underscore (`re.sub`), then truncate to 200 characters
(`clean[:200]`). -/
def sanitize_filename (s : String) : String :=
  String.mk ((s.data.map (fun c => if isReservedFilenameChar c then '_' else c)).take 200)

/-! ### JSON model (embedding of `json.loads` at the interface) -/

/-- JSON values as produced by `json.loads`, restricted to integer numerals
(the payloads of interest carry only integer numbers such as
`total_num_results`).  Objects keep their fields in textual order; lookup
takes the last binding, matching Python dict construction. -/
inductive Json where
  | null : Json
  | bool : Bool → Json
  | num : Int → Json
  | str : String → Json
  | arr : List Json → Json
  | obj : List (String × Json) → Json
deriving Repr

/-- Python truthiness on JSON values (`None`, `False`, `0`, `""`, `[]`, and
an empty dict are falsy). -/
def jfalsy : Json → Bool
  | Json.null => true
  | Json.bool b => !b
  | Json.num n => n = 0
  | Json.str s => s = ""
  | Json.arr xs => xs.isEmpty
  | Json.obj fs => fs.isEmpty

/-- `d.get(k)` on a decoded JSON object: last binding wins (Python dicts
built by `json.loads` overwrite duplicate keys); `none` when the value is
not a dict or the key is absent. -/
def jlookup (j : Json) (k : String) : Option Json :=
  match j with
  | Json.obj fs => fs.foldl (fun acc p => if p.1 = k then some p.2 else acc) none
  | _ => none

/-- Python's `x or default` idiom on JSON values. -/
def pyOr (v : Option Json) (dflt : Json) : Json :=
  match v with
  | none => dflt
  | some j => if jfalsy j then dflt else j

/-- JSON insignificant whitespace (RFC 8259: space, tab, LF, CR). -/
def isJsonWs (c : Char) : Bool :=
  c = ' ' || c = '\t' || c = '\n' || c = '\r'

def skipWs : List Char → List Char
  | [] => []
  | c :: cs => if isJsonWs c then skipWs cs else c :: cs

def hexVal (c : Char) : Option Nat :=
  if '0' ≤ c ∧ c ≤ '9' then some (c.toNat - 48)
  else if 'a' ≤ c ∧ c ≤ 'f' then some (c.toNat - 87)
  else if 'A' ≤ c ∧ c ≤ 'F' then some (c.toNat - 70)
  else none

/-- Body of a JSON string literal, after the opening quote.  Handles the
standard escapes and (non-surrogate) `\uXXXX`. -/
def parseStrBody (acc : List Char) : Nat → List Char → Option (String × List Char)
  | 0, _ => none
  | _ + 1, [] => none
  | fuel + 1, c :: cs =>
    if c = '\"' then some (String.mk acc.reverse, cs)
    else if c = '\\' then
      match cs with
      | [] => none
      | e :: cs' =>
        if e = '\"' then parseStrBody ('\"' :: acc) fuel cs'
        else if e = '\\' then parseStrBody ('\\' :: acc) fuel cs'
        else if e = '/' then parseStrBody ('/' :: acc) fuel cs'
        else if e = 'b' then parseStrBody ('\x08' :: acc) fuel cs'
        else if e = 'f' then parseStrBody ('\x0c' :: acc) fuel cs'
        else if e = 'n' then parseStrBody ('\n' :: acc) fuel cs'
        else if e = 'r' then parseStrBody ('\r' :: acc) fuel cs'
        else if e = 't' then parseStrBody ('\t' :: acc) fuel cs'
        else if e = 'u' then
          match cs' with
          | h1 :: h2 :: h3 :: h4 :: cs'' =>
            match hexVal h1, hexVal h2, hexVal h3, hexVal h4 with
            | some a, some b, some c2, some d =>
              let n := ((a * 16 + b) * 16 + c2) * 16 + d
              if 0xD800 ≤ n ∧ n ≤ 0xDFFF then none
              else if n.isValidChar then parseStrBody (Char.ofNat n :: acc) fuel cs''
              else none
            | _, _, _, _ => none
          | _ => none
        else none
    else if c.toNat < 0x20 then none
    else parseStrBody (c :: acc) fuel cs

/-- JSON integer numeral (fraction/exponent forms are outside the model). -/
def parseNum (cs : List Char) : Option (Int × List Char) :=
  let p := match cs with
    | '-' :: r => (true, r)
    | _ => (false, cs)
  let ds := p.2.takeWhile Char.isDigit
  let rest := p.2.dropWhile Char.isDigit
  if ds.isEmpty then none
  else if 1 < ds.length ∧ ds.head? = some '0' then none
  else
    match rest with
    | '.' :: _ => none
    | 'e' :: _ => none
    | 'E' :: _ => none
    | _ =>
      let n : Nat := ds.foldl (fun a c => a * 10 + (c.toNat - 48)) 0
      some (if p.1 then -(n : Int) else (n : Int), rest)

mutual

/-- One JSON value, fuel-based recursive-descent. -/
def parseVal (fuel : Nat) (cs : List Char) : Option (Json × List Char) :=
  match fuel with
  | 0 => none
  | f + 1 =>
    match skipWs cs with
    | [] => none
    | '{' :: rest => parseObj f rest
    | '[' :: rest => parseArr f rest
    | '\"' :: rest => (parseStrBody [] (rest.length + 1) rest).map (fun p => (Json.str p.1, p.2))
    | 't' :: 'r' :: 'u' :: 'e' :: rest => some (Json.bool true, rest)
    | 'f' :: 'a' :: 'l' :: 's' :: 'e' :: rest => some (Json.bool false, rest)
    | 'n' :: 'u' :: 'l' :: 'l' :: rest => some (Json.null, rest)
    | other => (parseNum other).map (fun p => (Json.num p.1, p.2))

def parseObj (fuel : Nat) (cs : List Char) : Option (Json × List Char) :=
  match fuel with
  | 0 => none
  | f + 1 =>
    match skipWs cs with
    | '}' :: rest => some (Json.obj [], rest)
    | other => parseMembers f other []

def parseMembers (fuel : Nat) (cs : List Char) (acc : List (String × Json)) :
    Option (Json × List Char) :=
  match fuel with
  | 0 => none
  | f + 1 =>
    match skipWs cs with
    | '\"' :: rest =>
      match parseStrBody [] (rest.length + 1) rest with
      | none => none
      | some (k, r1) =>
        match skipWs r1 with
        | ':' :: r2 =>
          match parseVal f r2 with
          | none => none
          | some (v, r3) =>
            match skipWs r3 with
            | ',' :: r4 => parseMembers f r4 (acc ++ [(k, v)])
            | '}' :: r4 => some (Json.obj (acc ++ [(k, v)]), r4)
            | _ => none
        | _ => none
    | _ => none

def parseArr (fuel : Nat) (cs : List Char) : Option (Json × List Char) :=
  match fuel with
  | 0 => none
  | f + 1 =>
    match skipWs cs with
    | ']' :: rest => some (Json.arr [], rest)
    | other => parseElems f other []

def parseElems (fuel : Nat) (cs : List Char) (acc : List Json) : Option (Json × List Char) :=
  match fuel with
  | 0 => none
  | f + 1 =>
    match parseVal f cs with
    | none => none
    | some (v, r1) =>
      match skipWs r1 with
      | ',' :: r2 => parseElems f r2 (acc ++ [v])
      | ']' :: r2 => some (Json.arr (acc ++ [v]), r2)
      | _ => none

end

/-- `json.loads`: parse a complete JSON document (integer-only fragment);
`none` models a raised `JSONDecodeError`. -/
def jsonParse (s : String) : Option Json :=
  match parseVal (4 * s.length + 4) s.data with
  | some (j, rest) => if (skipWs rest).isEmpty then some j else none
  | none => none

/-! ### Result records and the structured-API extraction tier -/

/-- `PatentSummary` dataclass from patent_downloader.py. -/
structure PatentSummary where
  title : String
  publication_number : Option String
  detail_url : String
deriving Repr, DecidableEq

def GOOGLE_PATENTS_ORIGIN : String := "https://patents.google.com"

/-- Python `str.strip()` (ASCII whitespace at both ends). -/
def pyStrip (s : String) : String :=
  String.mk (((s.data.dropWhile isPyWs).reverse.dropWhile isPyWs).reverse)

/-- Collect the maximal text runs of a markup string, dropping everything
between `<` and `>`. -/
def textRuns : List Char → Bool → List Char → List (List Char) → List (List Char)
  | [], _, cur, segs => if cur.isEmpty then segs else segs ++ [cur]
  | c :: cs, true, cur, segs =>
    if c = '>' then textRuns cs false [] segs else textRuns cs true cur segs
  | c :: cs, false, cur, segs =>
    if c = '<' then textRuns cs true [] (if cur.isEmpty then segs else segs ++ [cur])
    else textRuns cs false (cur ++ [c]) segs

/-- Model of `BeautifulSoup(raw_title, "lxml").get_text(" ").strip()` (external
library, embedded at its interface): markup tags are dropped, the remaining
text runs are joined with a single space, and the result is trimmed. -/
def stripTags (raw : String) : String :=
  pyStrip (String.intercalate " " ((textRuns raw.data false [] []).map String.mk))

/-- Python `item_id.lstrip("/")`. -/
def lstripSlash (s : String) : String :=
  String.mk (s.data.dropWhile (fun c => c = '/'))

/-- Requires a decoded value to be a dict (`.get` on anything else raises
`AttributeError`, which `_parse_results_from_xhr` turns into the HTML
fallback). -/
def asObj : Json → Option Json
  | Json.obj fs => some (Json.obj fs)
  | _ => none

/-- `pat.get("publication_number")` as an optional string.  String and null
values are modelled; payloads carrying a non-string, non-null
publication_number are outside the modelled domain (treated as extraction
failure). -/
def pubField : Option Json → Option (Option String)
  | none => some none
  | some Json.null => some none
  | some (Json.str s) => some (some s)
  | some _ => none

/-- `pat.get("title") or ""` followed by BeautifulSoup text extraction:
a truthy non-string title makes `BeautifulSoup(raw_title, ...)` raise. -/
def titleField (v : Json) : Option String :=
  match v with
  | Json.str s => some s
  | _ => none

/-- The `if not item_id: continue` test followed by `item_id.lstrip("/")`:
falsy ids are skipped (`.ok none`); truthy non-string ids raise
(`.error ()`); truthy strings are used. -/
def idCheck : Option Json → Except Unit (Option String)
  | none => Except.ok none
  | some Json.null => Except.ok none
  | some (Json.bool false) => Except.ok none
  | some (Json.num 0) => Except.ok none
  | some (Json.arr []) => Except.ok none
  | some (Json.obj []) => Except.ok none
  | some (Json.str s) => if s = "" then Except.ok none else Except.ok (some s)
  | some _ => Except.error ()

/-- One `item` of a `result` list (outer `none` = a raised exception, inner
`none` = the item was skipped by `continue`). -/
def processItem (item : Json) : Option (Option PatentSummary) := do
  let _ ← asObj item
  let itemId := jlookup item "id"
  let patJ := pyOr (jlookup item "patent") (Json.obj [])
  let _ ← asObj patJ
  let pub ← pubField (jlookup patJ "publication_number")
  let rawTitle ← titleField (pyOr (jlookup patJ "title") (Json.str ""))
  let title := stripTags rawTitle
  match idCheck itemId with
  | Except.error _ => none
  | Except.ok none => some none
  | Except.ok (some s) =>
    some (some
      { title := if title = "" then pub.getD "" else title
        publication_number := pub
        detail_url := GOOGLE_PATENTS_ORIGIN ++ "/" ++ lstripSlash s })

def processItems : List Json → Option (List PatentSummary)
  | [] => some []
  | item :: rest => do
    let r ← processItem item
    let rs ← processItems rest
    some (match r with
      | some p => p :: rs
      | none => rs)

/-- `cluster.get("result", [])` followed by iteration: the default only
applies when the key is missing; a present falsy value must itself be
(emptily) iterable, and items of non-list iterables raise at `.get`. -/
def itemsOfCluster (cluster : Json) : Option (List Json) := do
  let _ ← asObj cluster
  match jlookup cluster "result" with
  | none => some []
  | some (Json.arr xs) => some xs
  | some (Json.str "") => some []
  | some (Json.obj []) => some []
  | some _ => none

def processClusters : List Json → Option (List PatentSummary)
  | [] => some []
  | c :: rest => do
    let items ← itemsOfCluster c
    let rs ← processItems items
    let more ← processClusters rest
    some (rs ++ more)

/-- The structured-JSON branch of `_parse_results_from_xhr` (the body of its
`try` block after `json.loads`): `none` models any raised exception, which
the caller turns into the HTML-fragment fallback. -/
def structuredExtract (data : Json) : Option (List PatentSummary × Option Json) := do
  let _ ← asObj data
  let resultsNode := pyOr (jlookup data "results") (Json.obj [])
  let _ ← asObj resultsNode
  let clusters ← (match pyOr (jlookup resultsNode "cluster") (Json.arr []) with
    | Json.arr xs => some xs
    | _ => none)
  let total := jlookup resultsNode "total_num_results"
  let recs ← processClusters clusters
  some (recs, total)

/-- Does `content.strip().startswith("{")` hold? -/
def stripStartsWithBrace (s : String) : Bool :=
  match skipWs s.data with
  | c :: _ => c = '{'
  | [] => false

/-- `GooglePatentsXHRDownloader._parse_results_from_xhr`.  The HTML-fragment
tier (`_parse_results_from_html`, a BeautifulSoup traversal) is passed in as
`htmlParse`; the second component is the raw `total_num_results` value
(`None` on every non-structured path). -/
def parse_results_from_xhr (htmlParse : String → List PatentSummary) (content : String) :
    List PatentSummary × Option Json :=
  if content = "" then ([], none)
  else if stripStartsWithBrace content then
    match jsonParse content with
    | some data =>
      match structuredExtract data with
      | some out => out
      | none => (htmlParse content, none)
    | none => (htmlParse content, none)
  else (htmlParse content, none)

/-! ### Pagination (`_fetch_all_results`) -/

/-- The per-patent early-termination comparison inside `_fetch_all_results`:
`if patent.publication_number:` (truthiness) and equality of the inline
normalizations. -/
def pubMatches (target : String) (p : PatentSummary) : Bool :=
  match p.publication_number with
  | some s => !s.isEmpty && (early_termination_normalize s = early_termination_normalize target)
  | none => false

def pageMatch (target : String) (rs : List PatentSummary) : Bool :=
  rs.any (pubMatches target)

/-- The `if target_patent:` guard plus the scan of the newly fetched page. -/
def earlyHit (target : Option String) (rs : List PatentSummary) : Bool :=
  match target with
  | some t => if t = "" then false else pageMatch t rs
  | none => false

/-- The `for page in range(max_pages)` loop of `_fetch_all_results`.  `pages`
is the oracle for one page request: `none` models a transport error or an
exception (`break` after the request was issued), `some rs` the records
parsed from the response.  Alongside the accumulated records, the list of
issued requests is returned as `(start, num)` pairs — the rewritten
`start`/`num` query parameters of each page request. -/
def fetchLoop (pages : Nat → Option (List PatentSummary)) (totalCount pageSize : Nat)
    (target : Option String) :
    Nat → Nat → List PatentSummary → List (Nat × Nat) →
    List PatentSummary × List (Nat × Nat)
  | 0, _, acc, reqs => (acc, reqs)
  | rem + 1, page, acc, reqs =>
    let start := page * pageSize
    let num := min pageSize (totalCount - start)
    let reqs' := reqs ++ [(start, num)]
    match pages page with
    | none => (acc, reqs')
    | some rs =>
      let acc' := acc ++ rs
      if earlyHit target rs then (acc', reqs')
      else fetchLoop pages totalCount pageSize target rem (page + 1) acc' reqs'

/-- `GooglePatentsXHRDownloader._fetch_all_results` (the code fixes
`page_size = 100`; it is a parameter here so the ceiling computation
`max_pages = (total_count + page_size - 1) // page_size` can be stated for
any positive page size, as the spec does). -/
def fetch_all_results (pages : Nat → Option (List PatentSummary)) (totalCount pageSize : Nat)
    (target : Option String) : List PatentSummary × List (Nat × Nat) :=
  fetchLoop pages totalCount pageSize target ((totalCount + pageSize - 1) / pageSize) 0 [] []

/-- `f page ++ f (page+1) ++ ... ++ f (page+n-1)`: the records accumulated by
`n` consecutive successful pages starting at `page`. -/
def catFrom (f : Nat → List PatentSummary) (page : Nat) : Nat → List PatentSummary
  | 0 => []
  | n + 1 => f page ++ catFrom f (page + 1) n

/-- The `(start, num)` parameter pairs of `n` consecutive page requests
starting at `page`. -/
def reqFrom (totalCount pageSize page : Nat) : Nat → List (Nat × Nat)
  | 0 => []
  | n + 1 => (page * pageSize, min pageSize (totalCount - page * pageSize)) ::
      reqFrom totalCount pageSize (page + 1) n

/-! ### The page-merge loop of `search_and_download` -/

/-- `collect_from_current_page`'s merge step (patent_downloader.py lines
1048–1054), shared with the XHR pagination loops: append each new record
whose `detail_url` is truthy and not in `seen`, stopping once `max_results`
is reached.  Returns the grown record list, the grown `seen` set and the
number of records added. -/
def collectMerge (maxResults : Nat) :
    List PatentSummary → List String → Nat → List PatentSummary →
    List PatentSummary × List String × Nat
  | results, seen, added, [] => (results, seen, added)
  | results, seen, added, item :: rest =>
    if item.detail_url ≠ "" ∧ item.detail_url ∉ seen then
      let results' := results ++ [item]
      let seen' := item.detail_url :: seen
      if maxResults ≤ results'.length then (results', seen', added + 1)
      else collectMerge maxResults results' seen' (added + 1) rest
    else collectMerge maxResults results seen added rest

/-! ### Recall analyzer (`recall_analyzer.py`) -/

/-- One element of the `search_queries` list (`query_info.get("query", "")`
and `query_info.get("strategy", ...)` read possibly-missing keys). -/
structure QueryInfo where
  query : Option String
  strategy : Option String
deriving Repr, DecidableEq

/-- One entry of the `search_results` list built by
`RecallAnalyzer.execute_searches`. -/
structure SearchResult where
  query_index : Nat
  strategy : String
  query : String
  success : Bool
  total_results : Option Int
  parsed_results : Nat
  found_patents : List String
  error : Option String
deriving Repr, DecidableEq

/-- The record appended for query number `i` (1-based) by
`execute_searches`: `run` is the oracle for
`search_and_download(query, ..., count_only=True, ...)`, returning the
`(total_count, patents)` pair or raising (`Except.error`). -/
def mkEntry (run : String → Except String (Option Int × List PatentSummary)) (i : Nat)
    (q : QueryInfo) : SearchResult :=
  let queryText := q.query.getD ""
  let strat := q.strategy.getD ("Query " ++ toString i)
  match run queryText with
  | Except.ok (totalCount, patents) =>
    { query_index := i
      strategy := strat
      query := queryText
      success := true
      total_results := totalCount
      parsed_results := patents.length
      found_patents := patents.filterMap (fun p =>
        match p.publication_number with
        | some s => if s = "" then none else some s
        | none => none)
      error := none }
  | Except.error e =>
    { query_index := i
      strategy := strat
      query := queryText
      success := false
      total_results := none
      parsed_results := 0
      found_patents := []
      error := some e }

def executeSearchesAux (run : String → Except String (Option Int × List PatentSummary)) :
    Nat → List QueryInfo → List SearchResult
  | _, [] => []
  | i, q :: rest => mkEntry run i q :: executeSearchesAux run (i + 1) rest

/-- `RecallAnalyzer.execute_searches` over the `search_queries` list
(`enumerate(queries, 1)`; the per-query `try`/`except` is the
`Except`-valued oracle `run`). -/
def execute_searches (run : String → Except String (Option Int × List PatentSummary))
    (queries : List QueryInfo) : List SearchResult :=
  executeSearchesAux run 1 queries

/-- Is the normalized original patent among the normalized truthy
`found_patents` of a successful query?  (The per-result body of the loop in
`calculate_seed_recall`.) -/
def queryFound (normalizedOriginal : String) (r : SearchResult) : Bool :=
  r.success &&
    ((r.found_patents.filter (fun p => p ≠ "")).map normalize_patent_number).contains
      normalizedOriginal

/-- One element of `query_details` (the success-branch statistics fields kept
here are the ones the claims touch; the two float display averages of the
report are omitted below for the same reason). -/
structure QueryRecallDetail where
  query_index : Nat
  strategy : String
  query : String
  found : Bool
  reason : Option String
  found_patents_sample : List String
deriving Repr, DecidableEq

/-- The report dict returned by `calculate_seed_recall` (without the two
rounded float averages, which are display-only diagnostics). -/
structure RecallReport where
  original_patent : String
  normalized_patent : String
  total_queries : Nat
  successful_queries : Nat
  success_rate : ℚ
  seed_recall_rate : ℚ
  queries_found_patent : Nat
  query_details : List QueryRecallDetail
deriving Repr, DecidableEq

/-- `RecallAnalyzer.calculate_seed_recall`. -/
def calculate_seed_recall (originalPatentNumber : String) (searchResults : List SearchResult) :
    RecallReport :=
  let normalizedOriginal := normalize_patent_number originalPatentNumber
  let details := searchResults.map (fun r =>
    if r.success then
      { query_index := r.query_index
        strategy := r.strategy
        query := r.query
        found := queryFound normalizedOriginal r
        reason := none
        found_patents_sample := r.found_patents.take 3 : QueryRecallDetail }
    else
      { query_index := r.query_index
        strategy := r.strategy
        query := r.query
        found := false
        reason := some (r.error.getD "Query failed")
        found_patents_sample := [] : QueryRecallDetail })
  let foundInQueries := (searchResults.filter (queryFound normalizedOriginal)).length
  let totalQueries := searchResults.length
  let successfulQueries := (searchResults.filter (fun r => r.success)).length
  { original_patent := originalPatentNumber
    normalized_patent := normalizedOriginal
    total_queries := totalQueries
    successful_queries := successfulQueries
    success_rate := if 0 < totalQueries then (successfulQueries : ℚ) / (totalQueries : ℚ) else 0
    seed_recall_rate := if 0 < totalQueries then (foundInQueries : ℚ) / (totalQueries : ℚ) else 0
    queries_found_patent := foundInQueries
    query_details := details }

/-- Spec-side count for claim C6: the number of queries whose normalized
found-identifier set contains the normalized target. -/
def specQueriesFound (target : String) (searchResults : List SearchResult) : Nat :=
  (searchResults.filter (fun r =>
    ((r.found_patents.filter (fun p => p ≠ "")).map normalize_patent_number).contains
      (normalize_patent_number target))).length

/-! ### Concrete scenario inputs -/

/-- Scenario B payload: a structured response carrying the distinct
`user_error` marker. -/
def userErrorPayload : String :=
  "\x7b\"results\":\x7b\"user_error\":\"invalid argument: query syntax error\"\x7d\x7d"

/-- Scenario A: one successful query whose single extracted record has the
identifier `"US8771637B2"`. -/
def scenarioAResult : SearchResult :=
  { query_index := 1
    strategy := "Broad"
    query := "membrane"
    success := true
    total_results := some 1
    parsed_results := 1
    found_patents := ["US8771637B2"]
    error := none }

/-- A structured payload with one result item, used to witness the
tier-precedence theorem. -/
def structuredPayload : String :=
  "\x7b\"results\":\x7b\"total_num_results\":2,\"cluster\":[\x7b\"result\":" ++
  "[\x7b\"id\":\"patent/US11056471B2/en\",\"patent\":\x7b\"publication_number\":" ++
  "\"US11056471B2\",\"title\":\"Gas separation\"\x7d\x7d]\x7d]\x7d\x7d"

/-- Scenario D pages: `knownTotal = 250`, `pageSize = 100`, the
early-termination id `"US8771637B2"` appears on page 2 (index 1). -/
def scenarioDPages : Nat → List PatentSummary := fun n =>
  if n = 0 then
    [{ title := "A", publication_number := some "US1111111A",
       detail_url := "https://patents.google.com/patent/US1111111A/en" }]
  else if n = 1 then
    [{ title := "B", publication_number := some "US8771637B2",
       detail_url := "https://patents.google.com/patent/US8771637B2/en" }]
  else
    [{ title := "C", publication_number := some "US2222222B1",
       detail_url := "https://patents.google.com/patent/US2222222B1/en" }]

/-- A record used by the deduplication counterexample. -/
def dupRecord : PatentSummary :=
  { title := "Dup", publication_number := some "US3333333B2",
    detail_url := "https://patents.google.com/patent/US3333333B2/en" }

/-! ### Helper lemmas -/

theorem char_toNat_ofNat_valid (n : Nat) (h : n.isValidChar) : (Char.ofNat n).toNat = n := by
  simp only [Char.ofNat]
  rw [dif_pos h]
  rfl

theorem toUpper_eq_low_iff (c t : Char) (ht : t.toNat < 65) :
    (Char.toUpper c = t) ↔ c = t := by
  show (if c.toNat ≥ 97 ∧ c.toNat ≤ 122 then Char.ofNat (c.toNat - 32) else c) = t ↔ c = t
  by_cases h : c.toNat ≥ 97 ∧ c.toNat ≤ 122
  · rw [if_pos h]
    constructor
    · intro he
      exfalso
      have hv : (c.toNat - 32).isValidChar := Or.inl (by omega)
      have h2 := congrArg Char.toNat he
      rw [char_toNat_ofNat_valid _ hv] at h2
      omega
    · intro he
      exfalso
      have h2 := congrArg Char.toNat he
      omega
  · rw [if_neg h]

theorem etn_eq_norm_list (l : List Char) (h : ∀ c ∈ l, isPyWs c → c = ' ') :
    removeChar '-' (removeChar ',' (removeChar ' ' (l.map Char.toUpper))) =
    (l.filter (fun c => !(isPyWs c || c = ',' || c = '-'))).map Char.toUpper := by
  unfold removeChar
  rw [List.filter_filter, List.filter_filter, List.filter_map]
  apply congrArg (List.map Char.toUpper)
  apply List.filter_congr
  intro c hc
  have h1 := toUpper_eq_low_iff c ' ' (by decide)
  have h2 := toUpper_eq_low_iff c ',' (by decide)
  have h3 := toUpper_eq_low_iff c '-' (by decide)
  by_cases hw : isPyWs c = true
  · have hsp := h c hc hw
    subst hsp
    decide
  · have hcsp : c ≠ ' ' := fun e => by
      subst e
      exact hw (by decide)
    by_cases h4 : c = ','
    · subst h4
      decide
    · by_cases h5 : c = '-'
      · subst h5
        decide
      · have t1 : Char.toUpper c ≠ ' ' := fun e => hcsp (h1.mp e)
        have t2 : Char.toUpper c ≠ ',' := fun e => h4 (h2.mp e)
        have t3 : Char.toUpper c ≠ '-' := fun e => h5 (h3.mp e)
        simp [Function.comp, t1, t2, t3, hw, h4, h5]

/-! ### Claim theorems -/

/-- C1: the claim says a structured response carrying the `user_error`
marker is recorded with `succeeded = false` and the error detail preserved.
The code does the opposite: `_parse_results_from_xhr` never inspects
`user_error`, parses the payload to an empty record list with no total (the
same shape as a legitimate empty result), and `execute_searches` therefore
records the query as `success = True` with zero parsed results and no error.
This theorem evaluates the code at the failing input. -/
theorem c1_user_error_treated_as_zero_results :
    (∀ htmlParse, parse_results_from_xhr htmlParse userErrorPayload = ([], none)) ∧
    (execute_searches (fun _ => Except.ok (none, []))
        [{ query := some "TI=(bad query", strategy := some "Broad" }]).map
      (fun r => (r.success, r.error, r.parsed_results, r.found_patents)) =
      [(true, none, 0, [])] :=
  ⟨fun _ => rfl, rfl⟩

/-- C2: `normalize_patent_number` removes whitespace, commas and hyphens and
uppercases the rest, and on Scenario A the target `"US 8,771,637 B2"` and
the extracted `"US8771637B2"` both normalize to `"US8771637B2"`, so
`calculate_seed_recall` marks the query `found = true`. -/
theorem c2_normalize_and_scenario_a :
    (∀ x, normalize_patent_number x = normalizeSpec x) ∧
    normalize_patent_number "US 8,771,637 B2" = "US8771637B2" ∧
    normalize_patent_number "US8771637B2" = "US8771637B2" ∧
    (calculate_seed_recall "US 8,771,637 B2" [scenarioAResult]).query_details.map
      (fun d => d.found) = [true] ∧
    (calculate_seed_recall "US 8,771,637 B2" [scenarioAResult]).queries_found_patent = 1 := by
  refine ⟨?_, by decide, by decide, by decide, by decide⟩
  intro x
  by_cases h : x = ""
  · subst h
    rfl
  · unfold normalize_patent_number normalizeSpec
    rw [if_neg h]

/-- C3 counterexample: the claim says the inline normalization of
`_fetch_all_results` agrees with `normalize_patent_number` on all strings.
It does not: the inline form removes only the literal space character, while
`normalize_patent_number` removes every `\s` character, so they differ on a
string containing a tab. -/
theorem c3_counterexample_tab :
    early_termination_normalize "US\t123" ≠ normalize_patent_number "US\t123" := by
  decide

/-- C3 amended: the two normalizations agree on every string whose
whitespace characters are all the plain space character (in particular on
ordinary patent identifiers); they differ on strings containing other
whitespace such as tab or newline. -/
theorem c3_normalizations_agree_on_space_only (s : String)
    (h : ∀ c ∈ s.data, isPyWs c → c = ' ') :
    early_termination_normalize s = normalize_patent_number s := by
  by_cases hs : s = ""
  · subst hs
    rfl
  · unfold early_termination_normalize normalize_patent_number
    rw [if_neg hs]
    exact congrArg String.mk (etn_eq_norm_list s.data h)

theorem c3_normalizations_agree_on_space_only_witness :
    (∀ c ∈ ("US 8,771,637 B2" : String).data, isPyWs c → c = ' ') ∧
    early_termination_normalize "US 8,771,637 B2" =
      normalize_patent_number "US 8,771,637 B2" :=
  ⟨by decide, c3_normalizations_agree_on_space_only "US 8,771,637 B2" (by decide)⟩

/-- C10: `_sanitize_filename` returns a string of at most 200 characters
containing none of the reserved characters; position-wise, each surviving
character is the input character with reserved characters replaced by an
underscore. -/
theorem c10_sanitize_filename_safe : ∀ s : String,
    (sanitize_filename s).length ≤ 200 ∧
    ((sanitize_filename s).data.all (fun c => !isReservedFilenameChar c)) = true ∧
    ∀ i : Nat, (sanitize_filename s).data.get? i =
      if i < 200 then
        (s.data.get? i).map (fun c => if isReservedFilenameChar c then '_' else c)
      else none := by
  intro s
  refine ⟨?_, ?_, ?_⟩
  · show ((s.data.map _).take 200).length ≤ 200
    rw [List.length_take]
    exact min_le_left _ _
  · rw [List.all_eq_true]
    intro c hc
    have hc' := List.mem_of_mem_take hc
    obtain ⟨a, _, rfl⟩ := List.mem_map.mp hc'
    by_cases hb : isReservedFilenameChar a
    · simp [hb]
      decide
    · simp [hb]
  · intro i
    by_cases hi : i < 200
    · rw [if_pos hi]
      show ((s.data.map _).take 200).get? i = _
      rw [List.get?_take hi, List.get?_map]
    · rw [if_neg hi]
      apply List.get?_eq_none.mpr
      show ((s.data.map _).take 200).length ≤ i
      rw [List.length_take]
      omega

theorem reqFrom_length (totalCount pageSize : Nat) :
    ∀ n page, (reqFrom totalCount pageSize page n).length = n := by
  intro n
  induction n with
  | zero => intro page; rfl
  | succ m ih =>
    intro page
    simp [reqFrom, ih]

theorem fetchLoop_no_early (f : Nat → List PatentSummary) (totalCount pageSize : Nat)
    (target : Option String) (h : ∀ p, earlyHit target (f p) = false) :
    ∀ (n page : Nat) (acc : List PatentSummary) (reqs : List (Nat × Nat)),
    fetchLoop (fun m => some (f m)) totalCount pageSize target n page acc reqs =
      (acc ++ catFrom f page n, reqs ++ reqFrom totalCount pageSize page n) := by
  intro n
  induction n with
  | zero =>
    intro page acc reqs
    simp [fetchLoop, catFrom, reqFrom]
  | succ m ih =>
    intro page acc reqs
    show (let start := page * pageSize
          let num := min pageSize (totalCount - start)
          let reqs' := reqs ++ [(start, num)]
          let acc' := acc ++ f page
          if earlyHit target (f page) then (acc', reqs')
          else fetchLoop (fun m => some (f m)) totalCount pageSize target m (page + 1) acc' reqs') = _
    rw [if_neg (by rw [h page]; exact Bool.false_ne_true)]
    rw [ih (page + 1) (acc ++ f page) (reqs ++ [(page * pageSize, min pageSize (totalCount - page * pageSize))])]
    simp [catFrom, reqFrom, List.append_assoc]

/-- C4: with a positive page size and no early-termination match, errors or
unparseable pages, the pagination loop of `_fetch_all_results` issues exactly
`ceil(knownTotal / pageSize)` page requests (the code's
`max_pages = (total_count + page_size - 1) // page_size`), the i-th carrying
the rewritten query parameters `start = i * pageSize` and
`num = min(pageSize, knownTotal - start)`. -/
theorem c4_pagination_issues_ceil_pages (f : Nat → List PatentSummary)
    (knownTotal pageSize : Nat) (target : Option String)
    (hps : 0 < pageSize) (hnm : ∀ p, earlyHit target (f p) = false) :
    (fetch_all_results (fun n => some (f n)) knownTotal pageSize target).2 =
      reqFrom knownTotal pageSize 0 ((knownTotal + pageSize - 1) / pageSize) ∧
    ((fetch_all_results (fun n => some (f n)) knownTotal pageSize target).2).length =
      knownTotal ⌈/⌉ pageSize := by
  have h := fetchLoop_no_early f knownTotal pageSize target hnm
    ((knownTotal + pageSize - 1) / pageSize) 0 [] []
  unfold fetch_all_results
  rw [h]
  refine ⟨by simp, ?_⟩
  rw [Nat.ceilDiv_eq_add_pred_div]
  simp [reqFrom_length]

theorem c4_witness :
    0 < 100 ∧
    (fetch_all_results (fun _ => some ([] : List PatentSummary)) 250 100 none).2 =
      [(0, 100), (100, 100), (200, 50)] ∧
    ((fetch_all_results (fun _ => some ([] : List PatentSummary)) 250 100 none).2).length =
      250 ⌈/⌉ 100 := by
  have h := c4_pagination_issues_ceil_pages (fun _ => []) 250 100 none (by decide)
    (fun _ => rfl)
  exact ⟨by decide, by rw [h.1]; decide, h.2⟩

theorem fetchLoop_early_stop (f : Nat → List PatentSummary) (totalCount pageSize : Nat)
    (t : String) (ht : t ≠ "") :
    ∀ (k n page : Nat) (acc : List PatentSummary) (reqs : List (Nat × Nat)),
    k < n →
    (∀ j, j < k → pageMatch t (f (page + j)) = false) →
    pageMatch t (f (page + k)) = true →
    fetchLoop (fun m => some (f m)) totalCount pageSize (some t) n page acc reqs =
      (acc ++ catFrom f page (k + 1), reqs ++ reqFrom totalCount pageSize page (k + 1)) := by
  intro k
  induction k with
  | zero =>
    intro n page acc reqs hkn hno hmatch
    obtain ⟨m, rfl⟩ : ∃ m, n = m + 1 := ⟨n - 1, by omega⟩
    show (let start := page * pageSize
          let num := min pageSize (totalCount - start)
          let reqs' := reqs ++ [(start, num)]
          let acc' := acc ++ f page
          if earlyHit (some t) (f page) then (acc', reqs')
          else fetchLoop (fun m => some (f m)) totalCount pageSize (some t) m (page + 1) acc' reqs') = _
    rw [if_pos]
    · simp [catFrom, reqFrom]
    · show earlyHit (some t) (f page) = true
      simp only [earlyHit, if_neg ht]
      simpa using hmatch
  | succ k ih =>
    intro n page acc reqs hkn hno hmatch
    obtain ⟨m, rfl⟩ : ∃ m, n = m + 1 := ⟨n - 1, by omega⟩
    show (let start := page * pageSize
          let num := min pageSize (totalCount - start)
          let reqs' := reqs ++ [(start, num)]
          let acc' := acc ++ f page
          if earlyHit (some t) (f page) then (acc', reqs')
          else fetchLoop (fun m => some (f m)) totalCount pageSize (some t) m (page + 1) acc' reqs') = _
    rw [if_neg]
    · have hno' : ∀ j, j < k → pageMatch t (f (page + 1 + j)) = false := by
        intro j hj
        have := hno (j + 1) (by omega)
        rwa [show page + (j + 1) = page + 1 + j by omega] at this
      have hmatch' : pageMatch t (f (page + 1 + k)) = true := by
        rwa [show page + (k + 1) = page + 1 + k by omega] at hmatch
      rw [ih m (page + 1) (acc ++ f page)
        (reqs ++ [(page * pageSize, min pageSize (totalCount - page * pageSize))])
        (by omega) hno' hmatch']
      simp [catFrom, reqFrom, List.append_assoc]
    · show ¬ earlyHit (some t) (f page) = true
      simp only [earlyHit, if_neg ht]
      have := hno 0 (by omega)
      simp at this
      simp [this]

/-- C5: when an early-termination target is supplied, each fetched page is
scanned with the normalized comparison, and on the first page containing a
match `_fetch_all_results` returns the records accumulated so far having
issued exactly `k + 1` page requests — none for the remaining pages. -/
theorem c5_early_termination_stops_on_match (f : Nat → List PatentSummary)
    (knownTotal pageSize k : Nat) (t : String)
    (hps : 0 < pageSize) (ht : t ≠ "")
    (hk : k < (knownTotal + pageSize - 1) / pageSize)
    (hno : ∀ j, j < k → pageMatch t (f j) = false)
    (hmatch : pageMatch t (f k) = true) :
    (fetch_all_results (fun n => some (f n)) knownTotal pageSize (some t)).1 =
      catFrom f 0 (k + 1) ∧
    (fetch_all_results (fun n => some (f n)) knownTotal pageSize (some t)).2 =
      reqFrom knownTotal pageSize 0 (k + 1) ∧
    ((fetch_all_results (fun n => some (f n)) knownTotal pageSize (some t)).2).length =
      k + 1 := by
  have h := fetchLoop_early_stop f knownTotal pageSize t ht k
    ((knownTotal + pageSize - 1) / pageSize) 0 [] [] hk (by simpa using hno)
    (by simpa using hmatch)
  unfold fetch_all_results
  rw [h]
  exact ⟨by simp, by simp, by simp [reqFrom_length]⟩

/-- Scenario D: `knownTotal = 250`, `pageSize = 100`, target on page 2 →
exactly 2 page requests, and the returned records are pages 1 and 2. -/
theorem c5_early_termination_stops_on_match_witness :
    (fetch_all_results (fun n => some (scenarioDPages n)) 250 100 (some "US8771637B2")).1 =
      scenarioDPages 0 ++ scenarioDPages 1 ∧
    ((fetch_all_results (fun n => some (scenarioDPages n)) 250 100 (some "US8771637B2")).2).length
      = 2 := by
  have h := c5_early_termination_stops_on_match scenarioDPages 250 100 1 "US8771637B2"
    (by decide) (by decide) (by decide)
    (fun j hj => by
      have hj0 : j = 0 := by omega
      subst hj0
      decide)
    (by decide)
  refine ⟨?_, h.2.2⟩
  rw [h.1]
  simp [catFrom]

/-- C6: the report satisfies `seed_recall_rate = queries_found_patent /
total_queries` (exactly 0 when there are no queries), and — on inputs shaped
like `execute_searches` output, where a failed query carries no found
patents — `queries_found_patent` counts exactly the queries whose normalized
found-identifier set contains the normalized target. -/
theorem c6_recall_rate_invariant (target : String) (results : List SearchResult) :
    (calculate_seed_recall target results).seed_recall_rate =
      ((calculate_seed_recall target results).queries_found_patent : ℚ) /
        ((calculate_seed_recall target results).total_queries : ℚ) ∧
    (results.length = 0 → (calculate_seed_recall target results).seed_recall_rate = 0) ∧
    ((∀ r ∈ results, r.success = false → r.found_patents = []) →
      (calculate_seed_recall target results).queries_found_patent =
        specQueriesFound target results) := by
  refine ⟨?_, ?_, ?_⟩
  · by_cases h : 0 < results.length
    · simp [calculate_seed_recall, h]
    · have hr : results = [] := List.length_eq_zero.mp (by omega)
      subst hr
      simp [calculate_seed_recall]
  · intro h0
    have hr : results = [] := List.length_eq_zero.mp h0
    subst hr
    simp [calculate_seed_recall]
  · intro hfail
    show (results.filter (queryFound (normalize_patent_number target))).length =
      specQueriesFound target results
    unfold specQueriesFound
    congr 1
    apply List.filter_congr
    intro r hr
    by_cases hs : r.success
    · simp [queryFound, hs]
    · have hs' : r.success = false := by simpa using hs
      have hfp := hfail r hr hs'
      simp [queryFound, hs', hfp]

theorem c6_recall_rate_invariant_witness :
    (calculate_seed_recall "US8771637B2" [scenarioAResult]).seed_recall_rate =
      ((calculate_seed_recall "US8771637B2" [scenarioAResult]).queries_found_patent : ℚ) /
        ((calculate_seed_recall "US8771637B2" [scenarioAResult]).total_queries : ℚ) ∧
    (calculate_seed_recall "US8771637B2" []).seed_recall_rate = 0 ∧
    (calculate_seed_recall "US8771637B2" [scenarioAResult]).queries_found_patent =
      specQueriesFound "US8771637B2" [scenarioAResult] :=
  ⟨(c6_recall_rate_invariant "US8771637B2" [scenarioAResult]).1,
   (c6_recall_rate_invariant "US8771637B2" []).2.1 rfl,
   (c6_recall_rate_invariant "US8771637B2" [scenarioAResult]).2.2 (by decide)⟩

theorem execAux_get? (run : String → Except String (Option Int × List PatentSummary)) :
    ∀ (qs : List QueryInfo) (i0 i : Nat),
    (executeSearchesAux run i0 qs).get? i = (qs.get? i).map (mkEntry run (i0 + i)) := by
  intro qs
  induction qs with
  | nil => intro i0 i; simp [executeSearchesAux]
  | cons q rest ih =>
    intro i0 i
    cases i with
    | zero => simp [executeSearchesAux]
    | succ j =>
      show (executeSearchesAux run (i0 + 1) rest).get? j = _
      rw [ih (i0 + 1) j]
      have : i0 + 1 + j = i0 + (j + 1) := by omega
      rw [this]
      rfl

theorem execAux_length (run : String → Except String (Option Int × List PatentSummary)) :
    ∀ (qs : List QueryInfo) (i0 : Nat),
    (executeSearchesAux run i0 qs).length = qs.length := by
  intro qs
  induction qs with
  | nil => intro i0; rfl
  | cons q rest ih =>
    intro i0
    simp [executeSearchesAux, ih]

/-- C7: `execute_searches` produces exactly one entry per input query, in
input order, and a query whose execution raises is recorded with
`success = false`, the error string, zero parsed results and an empty
found-patent list — the remaining queries are still processed. -/
theorem c7_per_query_failure_isolated
    (run : String → Except String (Option Int × List PatentSummary))
    (queries : List QueryInfo) :
    (execute_searches run queries).length = queries.length ∧
    ∀ i q e, queries.get? i = some q →
      run (q.query.getD "") = Except.error e →
      (execute_searches run queries).get? i = some
        { query_index := i + 1
          strategy := q.strategy.getD ("Query " ++ toString (i + 1))
          query := q.query.getD ""
          success := false
          total_results := none
          parsed_results := 0
          found_patents := []
          error := some e } := by
  constructor
  · exact execAux_length run queries 1
  · intro i q e hq herr
    unfold execute_searches
    rw [execAux_get? run queries 1 i, hq]
    show some (mkEntry run (1 + i) q) = _
    unfold mkEntry
    simp only [herr]
    have : 1 + i = i + 1 := by omega
    rw [this]

theorem c7_per_query_failure_isolated_witness :
    (execute_searches
        (fun q => if q = "((bad" then Except.error "syntax" else Except.ok (some 3, []))
        [{ query := some "good", strategy := none },
         { query := some "((bad", strategy := some "Narrow" }]).length = 2 ∧
    (execute_searches
        (fun q => if q = "((bad" then Except.error "syntax" else Except.ok (some 3, []))
        [{ query := some "good", strategy := none },
         { query := some "((bad", strategy := some "Narrow" }]).get? 1 = some
      { query_index := 2
        strategy := "Narrow"
        query := "((bad"
        success := false
        total_results := none
        parsed_results := 0
        found_patents := []
        error := some "syntax" } := by
  have h := c7_per_query_failure_isolated
    (fun q => if q = "((bad" then Except.error "syntax" else Except.ok (some 3, []))
    [{ query := some "good", strategy := none },
     { query := some "((bad", strategy := some "Narrow" }]
  exact ⟨h.1, h.2 1 { query := some "((bad", strategy := some "Narrow" } "syntax" rfl rfl⟩

/-- C8: when the payload is syntactically a JSON object and the structured
decode succeeds, `_parse_results_from_xhr` returns the Structured-API tier's
records and total, and its result does not depend on the HTML-fragment
parser (the HTML tier is consulted only when the payload is not a JSON
object or the structured decode raises). -/
theorem c8_structured_tier_precedence (h1 h2 : String → List PatentSummary)
    (content : String) (data : Json) (out : List PatentSummary × Option Json)
    (hb : stripStartsWithBrace content = true)
    (hj : jsonParse content = some data)
    (hx : structuredExtract data = some out) :
    parse_results_from_xhr h1 content = out ∧
    parse_results_from_xhr h1 content = parse_results_from_xhr h2 content := by
  have hne : content ≠ "" := by
    intro he
    subst he
    simp [stripStartsWithBrace, skipWs] at hb
  constructor
  · simp [parse_results_from_xhr, hne, hb, hj, hx]
  · simp [parse_results_from_xhr, hne, hb, hj, hx]

set_option maxRecDepth 8000 in
theorem c8_structured_tier_precedence_witness :
    parse_results_from_xhr (fun _ => []) structuredPayload =
      ([{ title := "Gas separation", publication_number := some "US11056471B2",
          detail_url := "https://patents.google.com/patent/US11056471B2/en" }],
       some (Json.num 2)) ∧
    parse_results_from_xhr (fun _ => []) structuredPayload =
      parse_results_from_xhr (fun _ => [dupRecord]) structuredPayload :=
  c8_structured_tier_precedence (fun _ => []) (fun _ => [dupRecord]) structuredPayload
    (Json.obj [("results", Json.obj
      [("total_num_results", Json.num 2),
       ("cluster", Json.arr [Json.obj [("result", Json.arr [Json.obj
         [("id", Json.str "patent/US11056471B2/en"),
          ("patent", Json.obj
            [("publication_number", Json.str "US11056471B2"),
             ("title", Json.str "Gas separation")])]])]])])])
    ([{ title := "Gas separation", publication_number := some "US11056471B2",
        detail_url := "https://patents.google.com/patent/US11056471B2/en" }],
     some (Json.num 2))
    rfl rfl rfl

/-- C9 counterexample: the accumulation of `_fetch_all_results`
(`all_results.extend(page_results)`) performs no deduplication, so when two
pages carry the same record the accumulated list repeats its `detail_url`,
refuting the claim that every pagination merge keeps `detail_url`s pairwise
distinct. -/
theorem c9_counterexample_fetch_all_keeps_duplicates :
    (fetch_all_results (fun _ => some [dupRecord]) 200 100 none).1 =
      [dupRecord, dupRecord] ∧
    ¬ ((fetch_all_results (fun _ => some [dupRecord]) 200 100 none).1.map
        (fun r => r.detail_url)).Nodup := by
  constructor
  · decide
  · decide

/-- C9 amended: the page-merge step `collect_from_current_page` of
`search_and_download` (and the XHR page loops sharing its `seen`-set
pattern) drops every record whose `detail_url` is already present, so its
accumulated list keeps pairwise-distinct `detail_url`s; `_fetch_all_results`,
by contrast, extends without deduplication and can retain duplicates when
pages overlap. -/
theorem c9_collect_merge_dedups (maxResults : Nat) :
    ∀ (more results : List PatentSummary) (seen : List String) (added : Nat),
    (results.map (fun r => r.detail_url)).Nodup →
    (∀ r ∈ results, r.detail_url ∈ seen) →
    (((collectMerge maxResults results seen added more).1).map
      (fun r => r.detail_url)).Nodup := by
  intro more
  induction more with
  | nil =>
    intro results seen added hnd hsub
    simpa [collectMerge] using hnd
  | cons item rest ih =>
    intro results seen added hnd hsub
    show (((if item.detail_url ≠ "" ∧ item.detail_url ∉ seen then
        if maxResults ≤ (results ++ [item]).length then
          (results ++ [item], item.detail_url :: seen, added + 1)
        else collectMerge maxResults (results ++ [item]) (item.detail_url :: seen)
          (added + 1) rest
      else collectMerge maxResults results seen added rest).1).map
        (fun r => r.detail_url)).Nodup
    by_cases hc : item.detail_url ≠ "" ∧ item.detail_url ∉ seen
    · have hndApp : ((results ++ [item]).map (fun r => r.detail_url)).Nodup := by
        rw [List.map_append]
        rw [List.nodup_append]
        refine ⟨hnd, List.nodup_singleton _, ?_⟩
        intro u hu hu'
        simp at hu'
        obtain ⟨r, hr, hru⟩ := List.mem_map.mp hu
        exact hc.2 (by rw [← hu', ← hru]; exact hsub r hr)
      rw [if_pos hc]
      by_cases hm : maxResults ≤ (results ++ [item]).length
      · rw [if_pos hm]
        exact hndApp
      · rw [if_neg hm]
        apply ih (results ++ [item]) (item.detail_url :: seen) (added + 1) hndApp
        intro r hr
        rcases List.mem_append.mp hr with h | h
        · exact List.mem_cons_of_mem _ (hsub r h)
        · simp at h
          subst h
          exact List.mem_cons_self _ _
    · rw [if_neg hc]
      exact ih results seen added hnd hsub

theorem c9_collect_merge_dedups_witness :
    (((collectMerge 10 [dupRecord] [dupRecord.detail_url] 0
        [dupRecord, (scenarioDPages 0).headD dupRecord]).1).map
      (fun r => r.detail_url)).Nodup :=
  c9_collect_merge_dedups 10 [dupRecord, (scenarioDPages 0).headD dupRecord]
    [dupRecord] [dupRecord.detail_url] 0 (by decide) (by decide)
